import Mathlib

/-!
Shallow embedding of the session-management core of `src/src/App.tsx`
(documentvault-web): the transport wrapper `api` and the four session
operations `register`, `login`, `refresh`, `logout`, together with the
client-held session state (`user`, `accessToken`, `msg`).
-/

namespace DocumentVault

/-- `type User = { id: string; email: string; createdAt: string }` (App.tsx line 3). -/
structure User where
  id : String
  email : String
  createdAt : String
deriving DecidableEq

/-- The success-body shape `{ user: User; accessToken: string }` that
`register`/`login`/`refresh` expect from the server. -/
structure AuthData where
  user : User
  accessToken : String
deriving DecidableEq

/-- The `{ status: number; data: T | null }` result returned by `api` (App.tsx line 10). -/
structure ApiResult (B : Type) where
  status : Nat
  data : Option B
deriving DecidableEq

/-- The client-held session state: the `user`, `accessToken` and `msg`
React state cells of `App` (App.tsx lines 32-34). `null` is `none`. -/
structure Session where
  user : Option User
  accessToken : Option String
  msg : String
deriving DecidableEq

/- ### Transport wrapper (`api`, App.tsx lines 7-26) -/

/-- The argument object handed to `fetch`: url, method, headers,
credentials mode and serialized body. -/
structure FetchRequest where
  url : String
  method : String
  headers : List (String × String)
  credentials : String
  body : Option String
deriving DecidableEq

/-- What the embedding needs of a `fetch` response: its status, the
`content-type` header (`none` when absent), and the value `res.json()`
would parse to. -/
structure FetchResponse (B : Type) where
  status : Nat
  contentType : Option String
  jsonValue : B

/-- The options object of `api`: `RequestInit & { json?: unknown }`,
restricted to the fields the wrapper reads. `json = none` models an
absent (`undefined`) `json` option. -/
structure RequestOpts (A : Type) where
  method : String
  headers : List (String × String)
  json : Option A
  body : Option String

/-- `Headers.set`: replace any existing value for the name, else append. -/
def headersSet (hs : List (String × String)) (k v : String) : List (String × String) :=
  hs.filter (fun p => p.1 != k) ++ [(k, v)]

/-- Substring test on character lists, modelling JavaScript
`String.prototype.includes`. -/
def containsSub : List Char → List Char → Bool
  | [], pat => pat.isEmpty
  | c :: cs, pat => pat.isPrefixOf (c :: cs) || containsSub cs pat

/-- `ct.includes("application/json")` (App.tsx line 23). -/
def ctIncludesJson (ct : String) : Bool :=
  containsSub ct.data "application/json".data

/-- The request `api` passes to `fetch` (App.tsx lines 11-19): `apiBase`
is the configured `API_BASE`, `stringify` is `JSON.stringify`.  The
`Content-Type` header is set exactly when `opts.json` is supplied, and
then the body is the serialized json value, otherwise the raw
`opts.body` passes through; credentials are always `"include"`. -/
def buildRequest (apiBase : String) (stringify : A → String)
    (path : String) (opts : RequestOpts A) : FetchRequest :=
  { url := apiBase ++ path
    method := opts.method
    headers :=
      match opts.json with
      | some _ => headersSet opts.headers "Content-Type" "application/json"
      | none => opts.headers
    credentials := "include"
    body :=
      match opts.json with
      | some j => some (stringify j)
      | none => opts.body }

/-- How `api` reads a `fetch` response (App.tsx lines 21-25): `data` is
the parsed JSON body when the declared content type includes
`application/json`, else `null`; the status is passed through for every
status code, 4xx/5xx included. -/
def readResponse (res : FetchResponse B) : ApiResult B :=
  { status := res.status
    data :=
      if ctIncludesJson (res.contentType.getD "") then some res.jsonValue
      else none }

/-- The whole of `api` (App.tsx lines 7-26), with `fetch` abstracted as
`doFetch`. -/
def api (apiBase : String) (stringify : A → String)
    (doFetch : FetchRequest → FetchResponse B)
    (path : String) (opts : RequestOpts A) : ApiResult B :=
  readResponse (doFetch (buildRequest apiBase stringify path opts))

/- ### Session operations (App.tsx lines 38-101) -/

/-- The 409/400/other message chain of `register` (App.tsx lines 52-54);
only `msg` is written, `user` and `accessToken` are untouched. -/
def registerError (s : Session) (status : Nat) : Session :=
  if status = 409 then { s with msg := "Email already exists" }
  else if status = 400 then { s with msg := "Invalid payload" }
  else { s with msg := "Error: " ++ toString status }

/-- `register` (App.tsx lines 38-55) applied to the `api` result it
awaited: `setMsg("")` first, then on `status === 201 && res.data` store
user and token with message `"Registered"`, else classify by status. -/
def register (s : Session) (res : ApiResult AuthData) : Session :=
  let s := { s with msg := "" }
  if res.status = 201 then
    match res.data with
    | some d => { user := some d.user, accessToken := some d.accessToken, msg := "Registered" }
    | none => registerError s res.status
  else registerError s res.status

/-- The 401/400/other message chain of `login` (App.tsx lines 71-73). -/
def loginError (s : Session) (status : Nat) : Session :=
  if status = 401 then { s with msg := "Invalid credentials" }
  else if status = 400 then { s with msg := "Invalid payload" }
  else { s with msg := "Error: " ++ toString status }

/-- `login` (App.tsx lines 57-74). -/
def login (s : Session) (res : ApiResult AuthData) : Session :=
  let s := { s with msg := "" }
  if res.status = 200 then
    match res.data with
    | some d => { user := some d.user, accessToken := some d.accessToken, msg := "Logged in" }
    | none => loginError s res.status
  else loginError s res.status

/-- The 401/other message chain of `refresh` (App.tsx lines 87-88). -/
def refreshError (s : Session) (status : Nat) : Session :=
  if status = 401 then { s with msg := "No/invalid refresh cookie" }
  else { s with msg := "Error: " ++ toString status }

/-- `refresh` (App.tsx lines 76-89). -/
def refresh (s : Session) (res : ApiResult AuthData) : Session :=
  let s := { s with msg := "" }
  if res.status = 200 then
    match res.data with
    | some d => { user := some d.user, accessToken := some d.accessToken, msg := "Refreshed" }
    | none => refreshError s res.status
  else refreshError s res.status

/-- `logout` (App.tsx lines 91-101): on 204 clear both fields with
message `"Logged out"`, else only the error message changes. -/
def logout (s : Session) (res : ApiResult AuthData) : Session :=
  let s := { s with msg := "" }
  if res.status = 204 then { user := none, accessToken := none, msg := "Logged out" }
  else { s with msg := "Error: " ++ toString res.status }

/- ### Operations at the transport boundary -/

/-- Result of running one async operation to completion or rejection:
the session state afterwards, and whether an uncaught fault (a rejected
promise) escaped to the caller. -/
structure OpResult where
  session : Session
  fault : Bool
deriving DecidableEq

/-- One operation body as written in the source: `setMsg("")`, then
`await api(...)`.  None of the four operations contains a try/catch, so
when the transport rejects (`Except.error`, a network-level failure) the
rejection escapes the async function as an uncaught fault; the state
updates after the `await` never run, while the `setMsg("")` before it
already did. -/
def awaitOp (handle : Session → ApiResult AuthData → Session)
    (s : Session) (r : Except Unit (ApiResult AuthData)) : OpResult :=
  match r with
  | Except.ok res => { session := handle s res, fault := false }
  | Except.error _ => { session := { s with msg := "" }, fault := true }

/-- `register` at the transport boundary. -/
def registerOp (s : Session) (r : Except Unit (ApiResult AuthData)) : OpResult :=
  awaitOp register s r

/-- The four operations of the component. -/
inductive Op where
  | register
  | login
  | refresh
  | logout
deriving DecidableEq

/-- Dispatch an operation name to its handler. -/
def stepFn : Op → Session → ApiResult AuthData → Session
  | Op.register => register
  | Op.login => login
  | Op.refresh => refresh
  | Op.logout => logout

/-- Run one named operation at the transport boundary. -/
def applyOp (op : Op) (s : Session) (r : Except Unit (ApiResult AuthData)) : OpResult :=
  awaitOp (stepFn op) s r

/-- The designated success status code of each operation. -/
def successCode : Op → Nat
  | Op.register => 201
  | Op.login => 200
  | Op.refresh => 200
  | Op.logout => 204

/-- The initial React state: `user = null`, `accessToken = null`, `msg = ""`
(App.tsx lines 32-34). -/
def initSession : Session :=
  { user := none, accessToken := none, msg := "" }

/-- Run a sequence of operations, each with its transport outcome, from
the initial state; the session survives a faulting operation unchanged
(React state persists across an uncaught rejection). -/
def run (evs : List (Op × Except Unit (ApiResult AuthData))) : Session :=
  evs.foldl (fun s ev => (applyOp ev.1 s ev.2).session) initSession

/-- A session is never partially populated: user and access token are
both absent or both present. -/
def sessionWf (s : Session) : Prop :=
  (s.user = none ∧ s.accessToken = none) ∨ (s.user ≠ none ∧ s.accessToken ≠ none)

/- ### Concrete fixtures used by witnesses -/

/-- The user of the spec's Scenario A. -/
def someUser : User :=
  { id := "u1", email := "a@test.com", createdAt := "2024-01-01T00:00:00Z" }

/-- An authenticated session holding `someUser` and token `"tok1"`. -/
def authSession : Session :=
  { user := some someUser, accessToken := some "tok1", msg := "Logged in" }

/- ### Helper lemmas -/

/-- `registerError` only writes `msg`. -/
lemma registerError_frame (s : Session) (c : Nat) :
    (registerError s c).user = s.user ∧ (registerError s c).accessToken = s.accessToken := by
  unfold registerError
  split
  · exact ⟨rfl, rfl⟩
  · split
    · exact ⟨rfl, rfl⟩
    · exact ⟨rfl, rfl⟩

/-- `loginError` only writes `msg`. -/
lemma loginError_frame (s : Session) (c : Nat) :
    (loginError s c).user = s.user ∧ (loginError s c).accessToken = s.accessToken := by
  unfold loginError
  split
  · exact ⟨rfl, rfl⟩
  · split
    · exact ⟨rfl, rfl⟩
    · exact ⟨rfl, rfl⟩

/-- `refreshError` only writes `msg`. -/
lemma refreshError_frame (s : Session) (c : Nat) :
    (refreshError s c).user = s.user ∧ (refreshError s c).accessToken = s.accessToken := by
  unfold refreshError
  split
  · exact ⟨rfl, rfl⟩
  · exact ⟨rfl, rfl⟩

/-- Well-formedness transfers along unchanged user/token fields. -/
lemma sessionWf_of_frame {s t : Session} (hu : t.user = s.user)
    (ha : t.accessToken = s.accessToken) (h : sessionWf s) : sessionWf t := by
  rcases h with ⟨h1, h2⟩ | ⟨h1, h2⟩
  · exact Or.inl ⟨by rw [hu]; exact h1, by rw [ha]; exact h2⟩
  · exact Or.inr ⟨by rw [hu]; exact h1, by rw [ha]; exact h2⟩

/-- Each completed operation preserves session well-formedness. -/
lemma sessionWf_stepFn (op : Op) (s : Session) (res : ApiResult AuthData)
    (h : sessionWf s) : sessionWf (stepFn op s res) := by
  cases op
  case register =>
    simp only [stepFn, register]
    split
    · split
      · exact Or.inr ⟨fun hc => Option.noConfusion hc, fun hc => Option.noConfusion hc⟩
      · exact sessionWf_of_frame (registerError_frame _ _).1 (registerError_frame _ _).2 h
    · exact sessionWf_of_frame (registerError_frame _ _).1 (registerError_frame _ _).2 h
  case login =>
    simp only [stepFn, login]
    split
    · split
      · exact Or.inr ⟨fun hc => Option.noConfusion hc, fun hc => Option.noConfusion hc⟩
      · exact sessionWf_of_frame (loginError_frame _ _).1 (loginError_frame _ _).2 h
    · exact sessionWf_of_frame (loginError_frame _ _).1 (loginError_frame _ _).2 h
  case refresh =>
    simp only [stepFn, refresh]
    split
    · split
      · exact Or.inr ⟨fun hc => Option.noConfusion hc, fun hc => Option.noConfusion hc⟩
      · exact sessionWf_of_frame (refreshError_frame _ _).1 (refreshError_frame _ _).2 h
    · exact sessionWf_of_frame (refreshError_frame _ _).1 (refreshError_frame _ _).2 h
  case logout =>
    simp only [stepFn, logout]
    split
    · exact Or.inl ⟨rfl, rfl⟩
    · exact sessionWf_of_frame rfl rfl h

/-- An operation at the transport boundary preserves well-formedness,
whether it completes or faults. -/
lemma sessionWf_applyOp (op : Op) (s : Session) (r : Except Unit (ApiResult AuthData))
    (h : sessionWf s) : sessionWf (applyOp op s r).session := by
  cases r
  case ok res => exact sessionWf_stepFn op s res h
  case error e => exact sessionWf_of_frame rfl rfl h

/-- Folding any event list preserves well-formedness. -/
lemma sessionWf_foldl (evs : List (Op × Except Unit (ApiResult AuthData))) :
    ∀ s, sessionWf s →
      sessionWf (evs.foldl (fun s ev => (applyOp ev.1 s ev.2).session) s) := by
  induction evs with
  | nil => exact fun s h => h
  | cons ev evs ih => exact fun s h => ih _ (sessionWf_applyOp ev.1 s ev.2 h)

/- ### Claim theorems -/

/-- C1: for every sequence of operations (register, login, refresh,
logout), each with any transport outcome, the resulting session is
either exactly Anonymous (user and accessToken both absent) or exactly
Authenticated (both present); no reachable state pairs a user with a
missing credential or vice versa. -/
theorem session_never_partial (evs : List (Op × Except Unit (ApiResult AuthData))) :
    ((run evs).user = none ∧ (run evs).accessToken = none) ∨
    ((run evs).user ≠ none ∧ (run evs).accessToken ≠ none) :=
  sessionWf_foldl evs initSession (Or.inl ⟨rfl, rfl⟩)

/-- C2: every operation whose response status differs from its designated
success code (201 register, 200 login, 200 refresh, 204 logout) leaves
`user` and `accessToken` exactly as they were; only the message changes. -/
theorem failing_status_frame (op : Op) (s : Session) (res : ApiResult AuthData)
    (h : res.status ≠ successCode op) :
    (stepFn op s res).user = s.user ∧ (stepFn op s res).accessToken = s.accessToken := by
  cases op
  case register =>
    simp only [successCode] at h
    simp only [stepFn, register]
    rw [if_neg h]
    exact registerError_frame _ _
  case login =>
    simp only [successCode] at h
    simp only [stepFn, login]
    rw [if_neg h]
    exact loginError_frame _ _
  case refresh =>
    simp only [successCode] at h
    simp only [stepFn, refresh]
    rw [if_neg h]
    exact refreshError_frame _ _
  case logout =>
    simp only [successCode] at h
    simp only [stepFn, logout]
    rw [if_neg h]
    exact ⟨rfl, rfl⟩

/-- Witness for C2: a 401 login against an authenticated session leaves
user and token untouched. -/
theorem failing_status_frame_witness :
    (stepFn Op.login authSession ⟨401, none⟩).user = authSession.user ∧
    (stepFn Op.login authSession ⟨401, none⟩).accessToken = authSession.accessToken :=
  failing_status_frame Op.login authSession ⟨401, none⟩ (by decide)

/-- C3: a response carrying the success status code but a null parsed
body is not treated as success by register, login or refresh: the
session's user and accessToken are unchanged. -/
theorem success_status_null_body_ignored (s : Session) :
    ((register s ⟨201, none⟩).user = s.user ∧
      (register s ⟨201, none⟩).accessToken = s.accessToken) ∧
    ((login s ⟨200, none⟩).user = s.user ∧
      (login s ⟨200, none⟩).accessToken = s.accessToken) ∧
    ((refresh s ⟨200, none⟩).user = s.user ∧
      (refresh s ⟨200, none⟩).accessToken = s.accessToken) :=
  ⟨⟨rfl, rfl⟩, ⟨rfl, rfl⟩, ⟨rfl, rfl⟩⟩

/-- C4 counterexample: a network-level failure during register is NOT
reduced to an "Unknown"-style message — it escapes as an uncaught fault,
and the message at that point is the empty string set before the request,
contradicting the claim that every operation resolves to a
(newSession, message) pair. -/
theorem network_failure_not_caught :
    (registerOp initSession (Except.error ())).fault = true ∧
    (registerOp initSession (Except.error ())).session.msg = "" :=
  ⟨rfl, rfl⟩

/-- C4 (amended): none of the four operations contains a catch: a
transport-level network failure propagates to the caller as an uncaught
fault; the session's user and accessToken are unchanged and the message
is the empty string written at operation start, not an "Unknown"-style
message. -/
theorem network_failure_propagates (op : Op) (s : Session) :
    (applyOp op s (Except.error ())).fault = true ∧
    (applyOp op s (Except.error ())).session = { s with msg := "" } :=
  ⟨rfl, rfl⟩

/-- C5: register classifies by status exactly: 201 with body →
Authenticated + "Registered"; 409 → "Email already exists"; 400 →
"Invalid payload"; any other status → "Error: <code>". -/
theorem register_outcomes :
    (∀ s d, register s ⟨201, some d⟩
        = { user := some d.user, accessToken := some d.accessToken, msg := "Registered" }) ∧
    (∀ s res, res.status = 409 →
        register s res = { s with msg := "Email already exists" }) ∧
    (∀ s res, res.status = 400 →
        register s res = { s with msg := "Invalid payload" }) ∧
    (∀ s res, res.status ≠ 201 → res.status ≠ 409 → res.status ≠ 400 →
        register s res = { s with msg := "Error: " ++ toString res.status }) := by
  refine ⟨fun s d => rfl, ?_, ?_, ?_⟩
  · intro s res h
    simp only [register, registerError]
    rw [h]
    rfl
  · intro s res h
    simp only [register, registerError]
    rw [h]
    rfl
  · intro s res h1 h2 h3
    simp only [register, registerError]
    rw [if_neg h1, if_neg h2, if_neg h3]

/-- Witness for C5: the four register branches at concrete inputs. -/
theorem register_outcomes_witness :
    register initSession ⟨201, some ⟨someUser, "tok1"⟩⟩
      = { user := some someUser, accessToken := some "tok1", msg := "Registered" } ∧
    register authSession ⟨409, none⟩ = { authSession with msg := "Email already exists" } ∧
    register authSession ⟨400, none⟩ = { authSession with msg := "Invalid payload" } ∧
    register authSession ⟨500, none⟩ = { authSession with msg := "Error: 500" } :=
  ⟨register_outcomes.1 initSession ⟨someUser, "tok1"⟩,
   register_outcomes.2.1 authSession ⟨409, none⟩ rfl,
   register_outcomes.2.2.1 authSession ⟨400, none⟩ rfl,
   register_outcomes.2.2.2 authSession ⟨500, none⟩ (by decide) (by decide) (by decide)⟩

/-- C6: logout on a 204 response yields the Anonymous session with
message "Logged out", whatever the prior state was. -/
theorem logout_204_anonymous (s : Session) (res : ApiResult AuthData)
    (h : res.status = 204) :
    logout s res = { user := none, accessToken := none, msg := "Logged out" } := by
  simp only [logout]
  rw [h]
  rfl

/-- Witness for C6: logout with 204 from an authenticated session. -/
theorem logout_204_anonymous_witness :
    logout authSession ⟨204, none⟩
      = { user := none, accessToken := none, msg := "Logged out" } :=
  logout_204_anonymous authSession ⟨204, none⟩ rfl

/-- C7: refresh on 200 with a body replaces user and credential with the
response's values unconditionally; in particular even when the returned
user equals the stored one, the stored credential becomes the new token. -/
theorem refresh_always_replaces (s : Session) (d : AuthData) :
    refresh s ⟨200, some d⟩
      = { user := some d.user, accessToken := some d.accessToken, msg := "Refreshed" } ∧
    (s.user = some d.user →
      (refresh s ⟨200, some d⟩).accessToken = some d.accessToken) :=
  ⟨rfl, fun _ => rfl⟩

/-- Witness for C7: same user, fresh token "tok2" replaces "tok1". -/
theorem refresh_always_replaces_witness :
    refresh authSession ⟨200, some ⟨someUser, "tok2"⟩⟩
      = { user := some someUser, accessToken := some "tok2", msg := "Refreshed" } ∧
    (refresh authSession ⟨200, some ⟨someUser, "tok2"⟩⟩).accessToken = some "tok2" :=
  ⟨(refresh_always_replaces authSession ⟨someUser, "tok2"⟩).1,
   (refresh_always_replaces authSession ⟨someUser, "tok2"⟩).2 rfl⟩

/-- C8: the transport wrapper sets the Content-Type header and serializes
the json body exactly when a json option is supplied (otherwise the raw
body passes through), exposes the parsed body as `data` exactly when the
declared content type indicates JSON (else null), and passes every
status — non-2xx included — through as an ordinary result. -/
theorem api_transport_contract {A B : Type} (apiBase path : String)
    (stringify : A → String) (doFetch : FetchRequest → FetchResponse B)
    (opts : RequestOpts A) :
    (∀ j, opts.json = some j →
        (buildRequest apiBase stringify path opts).headers
          = headersSet opts.headers "Content-Type" "application/json" ∧
        (buildRequest apiBase stringify path opts).body = some (stringify j)) ∧
    (opts.json = none →
        (buildRequest apiBase stringify path opts).headers = opts.headers ∧
        (buildRequest apiBase stringify path opts).body = opts.body) ∧
    (∀ res : FetchResponse B,
        (ctIncludesJson (res.contentType.getD "") = true →
          readResponse res = { status := res.status, data := some res.jsonValue }) ∧
        (ctIncludesJson (res.contentType.getD "") = false →
          readResponse res = { status := res.status, data := none })) ∧
    (api apiBase stringify doFetch path opts).status
      = (doFetch (buildRequest apiBase stringify path opts)).status := by
  refine ⟨?_, ?_, ?_, rfl⟩
  · intro j hj
    simp [buildRequest, hj]
  · intro hj
    simp [buildRequest, hj]
  · intro res
    constructor
    · intro hct
      simp [readResponse, hct]
    · intro hct
      simp [readResponse, hct]

/-- Witness for C8 at concrete values: a supplied json body of 5 sets the
header and serializes to "5"; a JSON content type yields parsed data, a
non-JSON one yields null; a 401 comes back as an ordinary status. -/
theorem api_transport_contract_witness :
    (buildRequest "https://x" (fun n : Nat => toString n) "/auth/login"
        ⟨"POST", [], some 5, none⟩).headers = [("Content-Type", "application/json")] ∧
    (buildRequest "https://x" (fun n : Nat => toString n) "/auth/login"
        ⟨"POST", [], some 5, none⟩).body = some "5" ∧
    readResponse (⟨401, some "application/json", 9⟩ : FetchResponse Nat)
      = { status := 401, data := some 9 } ∧
    readResponse (⟨404, some "text/html", 9⟩ : FetchResponse Nat)
      = { status := 404, data := none } ∧
    (api "https://x" (fun n : Nat => toString n)
        (fun _ => (⟨401, some "application/json", 9⟩ : FetchResponse Nat))
        "/auth/login" ⟨"POST", [], some 5, none⟩).status = 401 := by
  have h := api_transport_contract "https://x" "/auth/login" (fun n : Nat => toString n)
    (fun _ => (⟨401, some "application/json", 9⟩ : FetchResponse Nat))
    ⟨"POST", [], some 5, none⟩
  refine ⟨?_, (h.1 5 rfl).2, ?_, ?_, h.2.2.2⟩
  · rw [(h.1 5 rfl).1]
    rfl
  · exact (h.2.2.1 ⟨401, some "application/json", 9⟩).1 (by decide)
  · exact (h.2.2.1 ⟨404, some "text/html", 9⟩).2 (by decide)

/-- C9: after a logout that received 204, a second logout receiving any
non-204 status leaves the session Anonymous — it does not resurrect a
prior user or credential. -/
theorem logout_twice_stays_anonymous (s : Session) (res1 res2 : ApiResult AuthData)
    (h1 : res1.status = 204) (h2 : res2.status ≠ 204) :
    (logout (logout s res1) res2).user = none ∧
    (logout (logout s res1) res2).accessToken = none := by
  have e1 : logout s res1 = { user := none, accessToken := none, msg := "Logged out" } := by
    simp only [logout]
    rw [h1]
    rfl
  rw [e1]
  simp only [logout]
  rw [if_neg h2]
  exact ⟨rfl, rfl⟩

/-- Witness for C9: authenticated session, logout with 204 then 401. -/
theorem logout_twice_stays_anonymous_witness :
    (logout (logout authSession ⟨204, none⟩) ⟨401, none⟩).user = none ∧
    (logout (logout authSession ⟨204, none⟩) ⟨401, none⟩).accessToken = none :=
  logout_twice_stays_anonymous authSession ⟨204, none⟩ ⟨401, none⟩ rfl (by decide)

/-- C10: a success status code with a null body falls through to the
generic branch: register at 201 yields "Error: 201", login and refresh
at 200 yield "Error: 200". -/
theorem success_code_null_body_generic_error (s : Session) :
    (register s ⟨201, none⟩).msg = "Error: 201" ∧
    (login s ⟨200, none⟩).msg = "Error: 200" ∧
    (refresh s ⟨200, none⟩).msg = "Error: 200" :=
  ⟨rfl, rfl, rfl⟩

end DocumentVault
